import Mathlib

/-!
A shallow embedding of the hospital-bill extraction service
(config.py, extractor.py, main.py) together with proofs about its
page-classification decision procedure, its item-extraction cleanup,
and its document pipeline.

Python strings are embedded as `String`/`List Char`.  The external
collaborators (HTTP download, PDF rasterization, the generative models
for OCR/classification/item extraction, and the JSON library) are
passed in as explicit function arguments, so every definition is an
executable function of its arguments.
-/

/-- Python `bytes` values, as produced by the download and rasterization steps. -/
abbrev PyBytes := List Nat

/-- Characters treated as whitespace by Python `str.strip`, `\s` (ASCII range). -/
def isPySpace (c : Char) : Bool :=
  c = ' ' || c = '\t' || c = '\n' || c = '\r' || c = '\x0b' || c = '\x0c'

/-- Python `str.lower` (ASCII). -/
def pyLower (s : String) : String :=
  String.mk (s.toList.map Char.toLower)

/-- Substring test on character lists; `containsSub n h` is Python `n in h`. -/
def containsSub (needle : List Char) : List Char → Bool
  | [] => needle.isEmpty
  | c :: tail => needle.isPrefixOf (c :: tail) || containsSub needle tail

/-- Python `needle in hay` for strings (substring containment). -/
def pyIn (needle hay : String) : Bool :=
  containsSub needle.toList hay.toList

/-- Python `str.strip` on a character list. -/
def stripChars (l : List Char) : List Char :=
  ((l.dropWhile isPySpace).reverse.dropWhile isPySpace).reverse

/-- Python `str.strip` (no arguments). -/
def pyStrip (s : String) : String :=
  String.mk (stripChars s.toList)

/-- Python `str.split("\n")`: split at every newline, keeping empty pieces. -/
def splitNl : List Char → List (List Char)
  | [] => [[]]
  | c :: cs =>
    if c = '\n' then [] :: splitNl cs
    else
      match splitNl cs with
      | [] => [[c]]
      | piece :: rest => (c :: piece) :: rest

/-- Python `str.replace` scanner: replace all non-overlapping occurrences, left to
right.  The fuel argument (instantiated to the list length, which every step
strictly decreases) only makes the recursion structural. -/
def replaceSubAux (pat rep : List Char) : Nat → List Char → List Char
  | _, [] => []
  | 0, l => l
  | fuel + 1, c :: cs =>
    if pat ≠ [] ∧ pat.isPrefixOf (c :: cs) then
      rep ++ replaceSubAux pat rep fuel ((c :: cs).drop pat.length)
    else
      c :: replaceSubAux pat rep fuel cs

/-- Python `str.replace`: replace all non-overlapping occurrences, left to right. -/
def replaceSub (pat rep l : List Char) : List Char :=
  replaceSubAux pat rep l.length l

/-- Python `s.replace(pat, rep)` for strings. -/
def pyReplace (s pat rep : String) : String :=
  String.mk (replaceSub pat.toList rep.toList s.toList)

/-- First index at which `needle` occurs, scanning from index `i`. -/
def findSubIdx (needle : List Char) : Nat → List Char → Option Nat
  | i, [] => if needle.isEmpty then some i else none
  | i, c :: cs =>
    if needle.isPrefixOf (c :: cs) then some i else findSubIdx needle (i + 1) cs

/-- Python `hay.find(needle)`: first index of occurrence, `-1` when absent. -/
def pyFind (hay needle : String) : Int :=
  match findSubIdx needle.toList 0 hay.toList with
  | some n => (n : Int)
  | none => -1

/-- Last index at which `needle` occurs, scanning from index `i` with current best. -/
def rfindSubIdx (needle : List Char) : Nat → Option Nat → List Char → Option Nat
  | i, best, [] => if needle.isEmpty then some i else best
  | i, best, c :: cs =>
    rfindSubIdx needle (i + 1) (if needle.isPrefixOf (c :: cs) then some i else best) cs

/-- Python `hay.rfind(needle)`: last index of occurrence, `-1` when absent. -/
def pyRfind (hay needle : String) : Int :=
  match rfindSubIdx needle.toList 0 none hay.toList with
  | some n => (n : Int)
  | none => -1

/-- Python slice `s[a:b]` for non-step slices, with negative-index resolution. -/
def pySlice (s : String) (a b : Int) : String :=
  let cs := s.toList
  let resolve : Int → Nat := fun i =>
    if i < 0 then ((cs.length : Int) + i).toNat else min i.toNat cs.length
  String.mk ((cs.drop (resolve a)).take (resolve b - resolve a))

/-- Word characters for the regex `\b` boundary (ASCII `\w`). -/
def isWordChar (c : Char) : Bool :=
  c.isAlphanum || c = '_'

/-- Consume the optional `\.?\d*` tail of a number token (maximal munch). -/
def munchFrac : List Char → List Char
  | '.' :: rest => rest.dropWhile Char.isDigit
  | l => l

/-- Consume one `\d+\.?\d*` number token (maximal munch); `none` if no leading digit. -/
def munchNum : List Char → Option (List Char)
  | [] => none
  | c :: cs =>
    if c.isDigit then some (munchFrac (cs.dropWhile Char.isDigit)) else none

/-- Consume one `\s+` whitespace run (maximal munch); `none` if no leading space. -/
def munchSpace : List Char → Option (List Char)
  | [] => none
  | c :: cs => if isPySpace c then some (cs.dropWhile isPySpace) else none

/-- Attempt the row pattern `\d+\.?\d*\s+\d+\.?\d*\s+\d+\.?\d*` at the head of `cs`,
returning the remaining characters after a successful match.  Greedy matching of
this pattern coincides with maximal munch, since each component must be followed
by a character of a disjoint class. -/
def matchRowAt (cs : List Char) : Option (List Char) :=
  (munchNum cs).bind fun r1 =>
    (munchSpace r1).bind fun r2 =>
      (munchNum r2).bind fun r3 =>
        (munchSpace r3).bind fun r4 => munchNum r4

/-- Scan for non-overlapping occurrences of the row pattern as `re.findall` does:
try a match at each position (the `\b` boundary needs a non-word predecessor,
and the pattern opens with a digit, a word character), and resume after the end
of each successful match.  The fuel argument (instantiated to the list length,
which every step strictly decreases) only makes the recursion structural. -/
def countRowsAux : Nat → Bool → List Char → Nat
  | 0, _, _ => 0
  | _, _, [] => 0
  | fuel + 1, prevWord, c :: cs =>
    if !prevWord && c.isDigit then
      match matchRowAt (c :: cs) with
      | some rest => 1 + countRowsAux fuel true rest
      | none => countRowsAux fuel (isWordChar c) cs
    else countRowsAux fuel (isWordChar c) cs

/-- Number of matches of `re.findall(r"\b(\d+\.?\d*)\s+(\d+\.?\d*)\s+(\d+\.?\d*)", t)`. -/
def countItemRows (cs : List Char) : Nat :=
  countRowsAux cs.length false cs


/-- Token usage record exposed by a generative-model response (`usage_metadata`). -/
structure Usage where
  prompt_token_count : Nat
  candidates_token_count : Nat
deriving DecidableEq

/-- Zero usage reported when a label is produced without a model call. -/
def DummyUsage : Usage :=
  { prompt_token_count := 0, candidates_token_count := 0 }

/-- Response of a generative-model call: its text and its usage counters. -/
structure GemResp where
  text : String
  usage_metadata : Usage
deriving DecidableEq

/-- Final-bill strong-signal lexicon (`final_bill_signals` in classify_page_text). -/
def final_bill_signals : List String :=
  ["patient name", "bill no", "uhid",
   "admission date", "discharge date",
   "net amount payable", "net bill amount",
   "total bill amount", "grand total", "amount received"]

/-- Final-bill category lexicon (`final_bill_categories`). -/
def final_bill_categories : List String :=
  ["consultation", "room rent", "bed charges", "investigation",
   "laboratory", "radiology", "pathology",
   "medical consumable", "drugs", "procedures",
   "surgery", "miscellaneous services"]

/-- Hard non-pharmacy override lexicon (`non_pharmacy_hard`). -/
def non_pharmacy_hard : List String :=
  ["consultation", "consultant",
   "dr.", "doctor", "surgeon", "general surgery",
   "dietician", "dietary",
   "procedure", "surgery",
   "ward", "room rent"]

/-- Bill-detail diagnostic keyword lexicon (`bill_detail_keywords`). -/
def bill_detail_keywords : List String :=
  ["x-ray", "xray", "usg", "ultrasound", "echo", "2d echo",
   "mri", "ct", "ecg",
   "cbc", "blood", "culture",
   "serum", "lipid", "crp",
   "lft", "kft", "widal", "hba1c",
   "radiology", "pathology", "laboratory"]

/-- Pharmacy keyword lexicon (`pharmacy_keywords`). -/
def pharmacy_keywords : List String :=
  ["pharmacy", "drug", "batch", "batch no", "mtrs name",
   "tablet", "tab ", "cap ", "capsule",
   "inj ", "injection", "vial",
   "syp", "syrup", "ointment", "gel",
   "mrp", "gst"]

/-- Handwritten-bill medicine indicators (`med_indicators`). -/
def med_indicators : List String :=
  ["tab", "cap", "inj", "syp"]

/-- Non-empty stripped lines of the lower-cased page text
(`[l.strip() for l in t.split("\n") if l.strip()]`). -/
def linesOf (t : String) : List (List Char) :=
  ((splitNl t.toList).map stripChars).filter (fun l => !l.isEmpty)

/-- Prompt sent to the fallback classifier model (rule 5 of classify_page_text). -/
def classifyPrompt (text : String) : String :=
  "\nClassify this page strictly as:\n- Final Bill\n- Bill Detail\n- Pharmacy\n\nRules:\nFinal Bill = totals + patient details + category-level charges\nBill Detail = many items/tests/services\nPharmacy = ONLY medicines list (tabs/caps/inj/mrp/batch numbers)\n\nText:\n"
    ++ text ++ "\n"

/-- Rules 1 to 4 of `classify_page_text` (extractor.py): the purely lexicon- and
regex-driven part of the decision procedure, in source order, with the binding
`t = text.lower()` inlined as `pyLower text`.  Returns `none` exactly when the
source falls through to the Gemini fallback. -/
def classify_local (text : String) : Option String :=
  if final_bill_signals.countP (fun k => pyIn k (pyLower text)) ≥ 2 ∧
      final_bill_categories.countP (fun k => pyIn k (pyLower text)) ≥ 2 then
    some "Final Bill"
  else if non_pharmacy_hard.any (fun k => pyIn k (pyLower text)) then
    some "Bill Detail"
  else if countItemRows (pyLower text).toList ≥ 5 then
    some "Bill Detail"
  else if bill_detail_keywords.any (fun kw => pyIn kw (pyLower text)) then
    some "Bill Detail"
  else if pharmacy_keywords.countP (fun k => pyIn k (pyLower text)) ≥ 3 then
    some "Pharmacy"
  else if (linesOf (pyLower text)).countP
      (fun l => med_indicators.any (fun m => containsSub m.toList l)) ≥ 3 then
    some "Pharmacy"
  else
    none

/-- The classifier `classify_page_text` (extractor.py): the local rules, then the
Gemini fallback (`GEMINI_CLASSIFIER.generate_content`), passed in as `gem`. -/
def classify_page_text (gem : String → GemResp) (text : String) : String × Usage :=
  match classify_local text with
  | some label => (label, DummyUsage)
  | none =>
    let resp := gem (classifyPrompt text)
    let label := pyLower (pyStrip resp.text)
    if pyIn "final" label then ("Final Bill", resp.usage_metadata)
    else if pyIn "pharm" label then ("Pharmacy", resp.usage_metadata)
    else ("Bill Detail", resp.usage_metadata)


instance {ε α : Type} [DecidableEq ε] [DecidableEq α] : DecidableEq (Except ε α) := fun x y =>
  match x, y with
  | .ok a, .ok b => if h : a = b then isTrue (by rw [h]) else isFalse (by simp [h])
  | .error a, .error b => if h : a = b then isTrue (by rw [h]) else isFalse (by simp [h])
  | .ok _, .error _ => isFalse (by simp)
  | .error _, .ok _ => isFalse (by simp)

/-- Line-item record as requested from the extraction model. -/
structure Item where
  item_name : String
  item_rate : String
  item_quantity : String
  item_amount : String
deriving DecidableEq

/-- Usage-like value returned by `extract_items_from_text`: either a real
`usage_metadata` object, or the plain dict literal produced by its exception
handler (`{"prompt_token_count": 0, "candidates_token_count": 0}`). -/
inductive UsageVal where
  | obj (u : Usage)
  | dict (pairs : List (String × Nat))
deriving DecidableEq

/-- Python attribute access `u.<attr>` on a usage-like value: attribute lookup on
a plain dict raises `AttributeError`. -/
def getattrUsage : UsageVal → String → Except String Nat
  | .obj u, a =>
    if a = "prompt_token_count" then .ok u.prompt_token_count
    else if a = "candidates_token_count" then .ok u.candidates_token_count
    else .error ("AttributeError: " ++ a)
  | .dict _, a => .error ("AttributeError: dict object has no attribute " ++ a)

/-- Prompt sent to the item-extraction model (`extract_items_from_text`). -/
def itemsPrompt (text page_type : String) : String :=
  "\nExtract ONLY the bill line items from this " ++ page_type ++
    " page.\n\nReturn STRICT JSON ONLY in the format:\n\n[\n  \x7b\n    \"item_name\": \"...\",\n    \"item_rate\": \"...\",\n    \"item_quantity\": \"...\",\n    \"item_amount\": \"...\"\n  \x7d\n]\n\nRULES:\n- Do NOT include explanations.\n- Do NOT include comments.\n- Do NOT add text before or after the JSON.\n- If no items found, return [] ONLY.\n\nTEXT:\n"
    ++ text ++ "\n"

/-- Output cleanup in `extract_items_from_text`:
`raw = resp.text.strip()` then `raw.replace("```", "").replace("json", "").strip()`. -/
def cleanRaw (s : String) : String :=
  pyStrip (pyReplace (pyReplace (pyStrip s) "```" "") "json" "")

/-- Scanner for `re.sub(r",\s*<close>", "<close>", s)`: drop a comma followed by
optional whitespace and the closing character.  The fuel argument (instantiated
to the list length, which every step strictly decreases) only makes the
recursion structural. -/
def subCommaBeforeAux (close : Char) : Nat → List Char → List Char
  | _, [] => []
  | 0, l => l
  | fuel + 1, c :: cs =>
    if c = ',' then
      match cs.dropWhile isPySpace with
      | d :: tail =>
        if d = close then close :: subCommaBeforeAux close fuel tail
        else c :: subCommaBeforeAux close fuel cs
      | [] => c :: subCommaBeforeAux close fuel cs
    else c :: subCommaBeforeAux close fuel cs

/-- Replace every `,\s*<close>` by `<close>` (non-overlapping, left to right). -/
def subCommaClose (close : Char) (l : List Char) : List Char :=
  subCommaBeforeAux close l.length l

/-- Second-chance JSON repair in `extract_items_from_text`: remove trailing commas
before `}` and `]`, then turn single quotes into double quotes. -/
def autoFix (s : String) : String :=
  let f1 := subCommaClose '\x7d' s.toList
  let f2 := subCommaClose ']' f1
  String.mk (f2.map (fun c => if c = Char.ofNat 39 then Char.ofNat 34 else c))

/-- The item extractor `extract_items_from_text` (extractor.py).  The call
`GEMINI_ITEMS.generate_content(prompt)` is passed in as `itemsModel` (an
`Except` model failure is a raised exception); the JSON library `json.loads`
is passed in as `jloads` (`none` is a parse error).  Every failure path
returns an empty item list; the exception path returns the dict literal. -/
def extract_items_from_text (itemsModel : String → Except String GemResp)
    (jloads : String → Option (List Item)) (text page_type : String) :
    List Item × UsageVal :=
  match itemsModel (itemsPrompt text page_type) with
  | .error _ => ([], .dict [("prompt_token_count", 0), ("candidates_token_count", 0)])
  | .ok resp =>
    let usage := resp.usage_metadata
    let raw := cleanRaw resp.text
    let start := pyFind raw "["
    let stop := pyRfind raw "]" + 1
    if start = -1 ∨ stop = -1 then ([], .obj usage)
    else
      let items_json := pySlice raw start stop
      match jloads items_json with
      | some items => (items, .obj usage)
      | none =>
        match jloads (autoFix items_json) with
        | some items => (items, .obj usage)
        | none => ([], .obj usage)

/-- HTTP response seen by `download_from_url` (the `requests.get` result). -/
structure HttpResp where
  status_code : Nat
  content : PyBytes
deriving DecidableEq

/-- The downloader `download_from_url` (extractor.py): non-200 status raises
`Exception("Failed to download document")`. -/
def download_from_url (resp : HttpResp) : Except String PyBytes :=
  if resp.status_code ≠ 200 then .error "Failed to download document"
  else .ok resp.content

/-- URL file-type helper `is_pdf` (extractor.py). -/
def is_pdf (url : String) : Bool :=
  pyIn ".pdf" (pyLower url)

/-- URL file-type helper `is_image` (extractor.py). -/
def is_image (url : String) : Bool :=
  let u := pyLower url
  pyIn ".png" u || pyIn ".jpg" u || pyIn ".jpeg" u

/-- One entry of `pagewise_line_items` in the final output of `extract_document`. -/
structure PageOut where
  page_no : String
  page_type : String
  bill_items : List Item
deriving DecidableEq

/-- The `token_usage` part of the final output of `extract_document`. -/
structure TokenUsage where
  total_tokens : Nat
  input_tokens : Nat
  output_tokens : Nat
deriving DecidableEq

/-- The success payload of `extract_document` (extractor.py, final return). -/
structure DocResult where
  token_usage : TokenUsage
  pagewise_line_items : List PageOut
  total_item_count : Nat
deriving DecidableEq

/-- The per-page loop of `extract_document`: OCR, classify, extract items, then
accumulate usage counters and the page record.  An OCR exception, or the
`AttributeError` from attribute access on the dict returned by the item
extractor's exception path, aborts the whole loop. -/
def processPages (ocr : PyBytes → Except String (String × Usage)) (gem : String → GemResp)
    (itemsModel : String → Except String GemResp) (jloads : String → Option (List Item)) :
    Nat → List PyBytes → Except String (List PageOut × Nat × Nat × Nat)
  | _, [] => .ok ([], 0, 0, 0)
  | page_no, img :: rest =>
    match ocr img with
    | .error e => .error e
    | .ok ou =>
      let text := ou.1
      let u1 := ou.2
      let cls := classify_page_text gem text
      let page_type := cls.1
      let u2 := cls.2
      let ext := extract_items_from_text itemsModel jloads text page_type
      let items := ext.1
      let u3 := ext.2
      match getattrUsage u3 "prompt_token_count" with
      | .error e => .error e
      | .ok p3 =>
        match getattrUsage u3 "candidates_token_count" with
        | .error e => .error e
        | .ok c3 =>
          match processPages ocr gem itemsModel jloads (page_no + 1) rest with
          | .error e => .error e
          | .ok q =>
            .ok ({ page_no := toString page_no, page_type := page_type, bill_items := items } :: q.1,
                 u1.prompt_token_count + u2.prompt_token_count + p3 + q.2.1,
                 u1.candidates_token_count + u2.candidates_token_count + c3 + q.2.2.1,
                 items.length + q.2.2.2)

/-- The orchestrator `extract_document` (extractor.py): download, pick the page
images (a single-element list for an image URL, otherwise the rasterized PDF
pages), process every page in order, and assemble the result dict.  The
external collaborators are passed in: `rasterize` is `convert_pdf_to_images`,
`ocr` is `gemini_ocr_extract`, `gem` is the fallback classifier model,
`itemsModel` and `jloads` serve the item extractor. -/
def extract_document (url : String) (http : HttpResp) (rasterize : PyBytes → List PyBytes)
    (ocr : PyBytes → Except String (String × Usage)) (gem : String → GemResp)
    (itemsModel : String → Except String GemResp) (jloads : String → Option (List Item)) :
    Except String DocResult :=
  match download_from_url http with
  | .error e => .error e
  | .ok file_bytes =>
    let pages := if is_image url then [file_bytes] else rasterize file_bytes
    match processPages ocr gem itemsModel jloads 1 pages with
    | .error e => .error e
    | .ok (outs, tin, tout, titems) =>
      .ok { token_usage := { total_tokens := tin + tout, input_tokens := tin, output_tokens := tout },
            pagewise_line_items := outs,
            total_item_count := titems }

/-- Top-level JSON response of the web endpoint, field-for-field: the success
path of main.py returns the extractor's dict unchanged (no `is_success` key);
the exception handler returns `{"is_success": False, "error": str(e)}`.
A `none` field is an absent key. -/
structure ApiResponse where
  is_success : Option Bool
  error : Option String
  token_usage : Option TokenUsage
  pagewise_line_items : Option (List PageOut)
  total_item_count : Option Nat
deriving DecidableEq

/-- The POST /extract endpoint of main.py: it calls the extractor entry point
(`extract_from_url`, the orchestrator embedded above as `extract_document`)
and turns any raised exception into a failure response. -/
def extract_endpoint (url : String) (http : HttpResp) (rasterize : PyBytes → List PyBytes)
    (ocr : PyBytes → Except String (String × Usage)) (gem : String → GemResp)
    (itemsModel : String → Except String GemResp) (jloads : String → Option (List Item)) :
    ApiResponse :=
  match extract_document url http rasterize ocr gem itemsModel jloads with
  | .ok r =>
    { is_success := none, error := none, token_usage := some r.token_usage,
      pagewise_line_items := some r.pagewise_line_items,
      total_item_count := some r.total_item_count }
  | .error e =>
    { is_success := some false, error := some e, token_usage := none,
      pagewise_line_items := none, total_item_count := none }


/-- Modelled from the spec: a classified page as seen by the Document-Level
Consistency Fixer (§4.2) — its label and its raw OCR text.  The revision of
the extractor containing this pass (the `extract_from_url` entry point that
main.py imports) is absent from src/. -/
structure RecPage where
  page_type : String
  raw_text : String
deriving DecidableEq

/-- Modelled from the spec: the core pharmacy structural tokens of §4.2 (batch,
expiry abbreviation, rate-column abbreviation, manufacturer abbreviation);
this lexicon is absent from src/. -/
def pharmacy_structural_tokens : List String :=
  ["batch", "exp", "mrp", "mfr"]

/-- Modelled from the spec: a page's raw text lacks every core pharmacy
structural token (§4.2). -/
def lacksPharmacyStructure (p : RecPage) : Bool :=
  pharmacy_structural_tokens.all (fun k => !(pyIn k (pyLower p.raw_text)))

/-- Modelled from the spec: the Document-Level Consistency Fixer `reconcile`
(§4.2), absent from src/.  If the document has at least one `Bill Detail`
page, every `Pharmacy` page whose raw text lacks all core pharmacy structural
tokens is downgraded to `Bill Detail`; nothing else changes. -/
def reconcile (pages : List RecPage) : List RecPage :=
  if pages.any (fun p => p.page_type == "Bill Detail") then
    pages.map (fun p =>
      if p.page_type == "Pharmacy" && lacksPharmacyStructure p then
        { p with page_type := "Bill Detail" }
      else p)
  else pages

/-- Modelled from the spec: the control flow of §2 — every page of the document
is classified first, and the Consistency Fixer then runs exactly once over the
full page list.  The orchestrator revision containing this pass is absent
from src/. -/
def classify_then_reconcile (gem : String → GemResp) (texts : List String) : List RecPage :=
  reconcile (texts.map (fun t => { page_type := (classify_page_text gem t).1, raw_text := t }))

/-- All keyword lexicons consulted by the local classification rules. -/
def allLexiconTerms : List String :=
  final_bill_signals ++ final_bill_categories ++ non_pharmacy_hard ++
    bill_detail_keywords ++ pharmacy_keywords ++ med_indicators

theorem isPrefixOf_iff_chars {l₁ l₂ : List Char} : l₁.isPrefixOf l₂ = true ↔ l₁ <+: l₂ := by
  induction l₁ generalizing l₂ with
  | nil => simp [List.isPrefixOf]
  | cons a t ih =>
    cases l₂ with
    | nil => simp [List.isPrefixOf]
    | cons b t2 =>
      simp [List.isPrefixOf, List.cons_prefix_cons, ih, Bool.and_eq_true, beq_iff_eq]

theorem containsSub_iff {n h : List Char} : containsSub n h = true ↔ n <:+: h := by
  induction h with
  | nil =>
    simp [containsSub, List.isEmpty_iff]
  | cons c tail ih =>
    simp only [containsSub, Bool.or_eq_true, isPrefixOf_iff_chars, ih,
      List.infix_cons_iff]

theorem pyIn_iff {n h : String} : pyIn n h = true ↔ n.toList <:+: h.toList :=
  containsSub_iff

theorem splitNl_ne_nil (cs : List Char) : splitNl cs ≠ [] := by
  cases cs with
  | nil => simp [splitNl]
  | cons c cs' =>
    by_cases hc : c = '\n'
    · simp [splitNl, hc]
    · simp only [splitNl, if_neg hc]
      cases splitNl cs' <;> simp

theorem splitNl_head_pre {cs p : List Char} {rest : List (List Char)}
    (h : splitNl cs = p :: rest) : p <+: cs := by
  induction cs generalizing p rest with
  | nil =>
    simp only [splitNl, List.cons.injEq] at h
    exact h.1 ▸ List.nil_prefix
  | cons c cs' ih =>
    by_cases hc : c = '\n'
    · simp only [splitNl, if_pos hc, List.cons.injEq] at h
      exact h.1 ▸ List.nil_prefix
    · simp only [splitNl, if_neg hc] at h
      cases hsp : splitNl cs' with
      | nil => exact absurd hsp (splitNl_ne_nil cs')
      | cons q rest' =>
        rw [hsp, List.cons.injEq] at h
        have hq : q <+: cs' := ih hsp
        rw [← h.1]
        exact List.cons_prefix_cons.mpr ⟨rfl, hq⟩

theorem splitNl_mem_sub {cs piece : List Char} (h : piece ∈ splitNl cs) : piece <:+: cs := by
  induction cs generalizing piece with
  | nil =>
    simp only [splitNl, List.mem_singleton] at h
    exact h ▸ List.nil_infix
  | cons c cs' ih =>
    by_cases hc : c = '\n'
    · simp only [splitNl, if_pos hc, List.mem_cons] at h
      rcases h with h | h
      · exact h ▸ List.nil_infix
      · exact (ih h).trans (List.suffix_cons c cs').isInfix
    · simp only [splitNl, if_neg hc] at h
      cases hsp : splitNl cs' with
      | nil => exact absurd hsp (splitNl_ne_nil cs')
      | cons q rest' =>
        rw [hsp, List.mem_cons] at h
        rcases h with h | h
        · have hq : q <+: cs' := splitNl_head_pre hsp
          rw [h]
          exact (List.cons_prefix_cons.mpr ⟨rfl, hq⟩).isInfix
        · have : piece ∈ splitNl cs' := hsp ▸ List.mem_cons_of_mem q h
          exact (ih this).trans (List.suffix_cons c cs').isInfix

theorem stripChars_sub (l : List Char) : stripChars l <:+: l := by
  unfold stripChars
  have h1 : l.dropWhile isPySpace <:+ l := List.dropWhile_suffix isPySpace
  have h2 : ((l.dropWhile isPySpace).reverse.dropWhile isPySpace).reverse <+:
      l.dropWhile isPySpace := by
    rw [← List.reverse_suffix]
    simpa using List.dropWhile_suffix (l := (l.dropWhile isPySpace).reverse) isPySpace
  exact h2.isInfix.trans h1.isInfix

theorem linesOf_mem_sub {s : String} {l : List Char} (h : l ∈ linesOf s) :
    l <:+: s.toList := by
  unfold linesOf at h
  obtain ⟨hmem, -⟩ := List.mem_filter.mp h
  obtain ⟨piece, hpiece, hl⟩ := List.mem_map.mp hmem
  exact hl ▸ (stripChars_sub piece).trans (splitNl_mem_sub hpiece)

theorem classify_of_local {t l : String} (g : String → GemResp)
    (h : classify_local t = some l) : classify_page_text g t = (l, DummyUsage) := by
  unfold classify_page_text
  rw [h]

theorem classify_of_fallback {t : String} (g : String → GemResp)
    (h : classify_local t = none) :
    classify_page_text g t =
      (if pyIn "final" (pyLower (pyStrip (g (classifyPrompt t)).text)) then
        ("Final Bill", (g (classifyPrompt t)).usage_metadata)
      else if pyIn "pharm" (pyLower (pyStrip (g (classifyPrompt t)).text)) then
        ("Pharmacy", (g (classifyPrompt t)).usage_metadata)
      else ("Bill Detail", (g (classifyPrompt t)).usage_metadata)) := by
  unfold classify_page_text
  rw [h]

/-- Modelled from the spec: the retail-pharmacy column-header terms of the hard
pharmacy structural check (§4.1 rule 1; the §8 scenario lists "Batch No, Exp,
Mfr, Sch, Name of Drug").  Neither the rule nor its header lexicon appears in
the src/ revision of `classify_page_text`. -/
def pharmacy_header_terms : List String :=
  ["batch no", "exp", "mfr", "sch", "name of drug"]

theorem classify_label_cases (g : String → GemResp) (t : String) :
    (classify_page_text g t).1 = "Final Bill" ∨ (classify_page_text g t).1 = "Bill Detail" ∨
      (classify_page_text g t).1 = "Pharmacy" := by
  cases hl : classify_local t with
  | some l =>
    rw [classify_of_local g hl]
    unfold classify_local at hl
    split_ifs at hl <;> simp_all
  | none =>
    rw [classify_of_fallback g hl]
    split_ifs <;> simp

/-- C1 counterexample: a text containing all five spec pharmacy header terms
(hence at least 4 distinct ones) together with the override term "doctor" is
classified "Bill Detail", not "Pharmacy". -/
theorem claim_C1_counterexample :
    pharmacy_header_terms.countP
        (fun k => pyIn k (pyLower "batch no, exp, mfr, sch, name of drug, seen by doctor")) ≥ 4 ∧
    (classify_page_text (fun _ => { text := "", usage_metadata := DummyUsage })
        "batch no, exp, mfr, sch, name of drug, seen by doctor").1 ≠ "Pharmacy" :=
  ⟨by decide, by decide⟩

/-- C1 (amended): texts with ≥4 distinct pharmacy header terms are not
unconditionally "Pharmacy": no hard pharmacy structural rule exists in
`classify_page_text`, and the pharmacy rules run after the final-bill and
non-pharmacy checks.  The pure header text "batch no, exp, mfr, sch, name of
drug" does classify as "Pharmacy" (through the ≥3 pharmacy-keyword rule, for
every fallback oracle), but the same text extended with the override term
"doctor" classifies as "Bill Detail". -/
theorem claim_C1_amended (g : String → GemResp) :
    (classify_page_text g "batch no, exp, mfr, sch, name of drug").1 = "Pharmacy" ∧
    (classify_page_text g "batch no, exp, mfr, sch, name of drug, seen by doctor").1 =
      "Bill Detail" := by
  constructor
  · rw [classify_of_local g (show classify_local "batch no, exp, mfr, sch, name of drug" = some "Pharmacy" by decide)]
  · rw [classify_of_local g (show classify_local "batch no, exp, mfr, sch, name of drug, seen by doctor" = some "Bill Detail" by decide)]

/-- C2 counterexample: on a text that reaches the Gemini fallback (the empty
page), two invocations of `classify_page_text` whose external classifier
responds differently return different labels, so the classifier is not a pure
function of the text alone. -/
theorem claim_C2_counterexample :
    (classify_page_text (fun _ => { text := "Final Bill", usage_metadata := DummyUsage }) "").1 ≠
      (classify_page_text (fun _ => { text := "Pharmacy", usage_metadata := DummyUsage }) "").1 :=
  by decide

/-- C2 (amended): on every text decided by the local rules 1-4,
`classify_page_text` is deterministic and depends only on the text and the
fixed lexicons: any two fallback oracles (and hence any two invocations, in
any page order and with any state of other pages) produce the same label.
Texts that fall through to the Gemini fallback additionally depend on the
external model response. -/
theorem claim_C2_amended (g₁ g₂ : String → GemResp) (t lbl : String)
    (h : classify_local t = some lbl) :
    (classify_page_text g₁ t).1 = lbl ∧
      (classify_page_text g₁ t).1 = (classify_page_text g₂ t).1 := by
  rw [classify_of_local g₁ h, classify_of_local g₂ h]
  exact ⟨rfl, rfl⟩

theorem claim_C2_witness :
    (classify_page_text (fun _ => { text := "final", usage_metadata := DummyUsage }) "icu ward").1
        = "Bill Detail" ∧
      (classify_page_text (fun _ => { text := "final", usage_metadata := DummyUsage }) "icu ward").1
        = (classify_page_text (fun _ => { text := "pharm", usage_metadata := DummyUsage }) "icu ward").1 :=
  claim_C2_amended _ _ "icu ward" "Bill Detail" (by decide)

/-- C4: for every input text containing any phrase of the classifier's fixed
non-pharmacy hard-override lexicon, `classify_page_text` never returns
"Pharmacy": the override (or the even earlier final-bill rule, which also
never yields "Pharmacy") fires before any pharmacy rule, for every fallback
oracle. -/
theorem claim_C4_override_blocks_pharmacy (g : String → GemResp) (t k : String)
    (hk : k ∈ non_pharmacy_hard) (hin : pyIn k (pyLower t) = true) :
    (classify_page_text g t).1 ≠ "Pharmacy" := by
  have hany : non_pharmacy_hard.any (fun s => pyIn s (pyLower t)) = true :=
    List.any_eq_true.mpr ⟨k, hk, hin⟩
  by_cases h1 : (final_bill_signals.countP (fun s => pyIn s (pyLower t)) ≥ 2 ∧
      final_bill_categories.countP (fun s => pyIn s (pyLower t)) ≥ 2)
  · have hloc : classify_local t = some "Final Bill" := by
      unfold classify_local
      rw [if_pos h1]
    rw [classify_of_local g hloc]
    decide
  · have hloc : classify_local t = some "Bill Detail" := by
      unfold classify_local
      rw [if_neg h1, if_pos hany]
    rw [classify_of_local g hloc]
    decide

theorem claim_C4_witness :
    ("ward" ∈ non_pharmacy_hard ∧ pyIn "ward" (pyLower "icu ward charges") = true) ∧
      (classify_page_text (fun _ => { text := "", usage_metadata := DummyUsage })
          "icu ward charges").1 ≠ "Pharmacy" :=
  ⟨⟨by decide, by decide⟩,
    claim_C4_override_blocks_pharmacy _ "icu ward charges" "ward" (by decide) (by decide)⟩

/-- C6 counterexample: the end-to-end scenario text of the spec is classified
"Bill Detail", not "Final Bill", by the src revision. -/
theorem claim_C6_counterexample :
    (classify_page_text (fun _ => { text := "", usage_metadata := DummyUsage })
        "Patient Name: John, Admission Date: 1/1, Room Rent 500, Total Bill Amount 5000").1 ≠
      "Final Bill" := by decide

/-- C6 (amended): for the scenario text, only one billing-category term ("room
rent") matches, so the final-bill rule (which needs two category hits in this
revision) does not fire, and the non-pharmacy override ("room rent" again)
then fires: `classify_page_text` returns "Bill Detail", for every fallback
oracle. -/
theorem claim_C6_amended (g : String → GemResp) :
    (classify_page_text g
        "Patient Name: John, Admission Date: 1/1, Room Rent 500, Total Bill Amount 5000").1 =
      "Bill Detail" := by
  rw [classify_of_local g (show classify_local
    "Patient Name: John, Admission Date: 1/1, Room Rent 500, Total Bill Amount 5000"
      = some "Bill Detail" by decide)]

/-- C5 counterexample: the empty page matches none of the lexicons and no
tabular row pattern, yet with a fallback oracle answering "pharmacy" the
classifier returns "Pharmacy", not the default "Bill Detail": the final rule
of the src revision is a Gemini call, not an unconditional default. -/
theorem claim_C5_counterexample :
    allLexiconTerms.all (fun k => !(pyIn k (pyLower ""))) = true ∧
    countItemRows (pyLower "").toList = 0 ∧
    (classify_page_text (fun _ => { text := "pharmacy", usage_metadata := DummyUsage }) "").1 ≠
      "Bill Detail" :=
  ⟨by decide, by decide, by decide⟩

/-- C5 (amended): a text matching none of the lexicons and no tabular row falls
through every local rule (`classify_local` is `none`) and is decided by the
external fallback classifier; the label is "Bill Detail" whenever the
fallback response mentions neither "final" nor "pharm", and classification
always returns one of the three labels, never failing. -/
theorem claim_C5_amended (g : String → GemResp) (t : String)
    (hlex : allLexiconTerms.all (fun k => !(pyIn k (pyLower t))) = true)
    (hrows : countItemRows (pyLower t).toList = 0) :
    classify_local t = none ∧
    ((classify_page_text g t).1 = "Final Bill" ∨ (classify_page_text g t).1 = "Bill Detail" ∨
      (classify_page_text g t).1 = "Pharmacy") ∧
    (pyIn "final" (pyLower (pyStrip (g (classifyPrompt t)).text)) = false →
      pyIn "pharm" (pyLower (pyStrip (g (classifyPrompt t)).text)) = false →
      (classify_page_text g t).1 = "Bill Detail") := by
  have hterm : ∀ k ∈ allLexiconTerms, pyIn k (pyLower t) = false := by
    intro k hk
    simpa using List.all_eq_true.mp hlex k hk
  have hsub : ∀ L : List String, (∀ x ∈ L, x ∈ allLexiconTerms) →
      L.countP (fun k => pyIn k (pyLower t)) = 0 := by
    intro L hL
    exact List.countP_eq_zero.mpr (fun a ha => by simp [hterm a (hL a ha)])
  have hsig : final_bill_signals.countP (fun k => pyIn k (pyLower t)) = 0 := by
    refine hsub _ (fun x hx => ?_)
    unfold allLexiconTerms
    simp only [List.mem_append]
    tauto
  have hhard : non_pharmacy_hard.any (fun k => pyIn k (pyLower t)) = false := by
    rw [List.any_eq_false]
    intro x hx
    have hx2 : x ∈ allLexiconTerms := by
      unfold allLexiconTerms
      simp only [List.mem_append]
      tauto
    simp [hterm x hx2]
  have hbdk : bill_detail_keywords.any (fun kw => pyIn kw (pyLower t)) = false := by
    rw [List.any_eq_false]
    intro x hx
    have hx2 : x ∈ allLexiconTerms := by
      unfold allLexiconTerms
      simp only [List.mem_append]
      tauto
    simp [hterm x hx2]
  have hpharm : pharmacy_keywords.countP (fun k => pyIn k (pyLower t)) = 0 := by
    refine hsub _ (fun x hx => ?_)
    unfold allLexiconTerms
    simp only [List.mem_append]
    tauto
  have hmed : (linesOf (pyLower t)).countP
      (fun l => med_indicators.any (fun m => containsSub m.toList l)) = 0 := by
    refine List.countP_eq_zero.mpr (fun l hl hc => ?_)
    obtain ⟨m, hm, hin⟩ := List.any_eq_true.mp hc
    have hsubl : m.toList <:+: (pyLower t).toList :=
      (containsSub_iff.mp hin).trans (linesOf_mem_sub hl)
    have hmall : m ∈ allLexiconTerms := by
      unfold allLexiconTerms
      simp only [List.mem_append]
      tauto
    have := hterm m hmall
    rw [pyIn, containsSub_iff.mpr hsubl] at this
    exact Bool.true_eq_false.mp this
  have hnone : classify_local t = none := by
    unfold classify_local
    rw [if_neg (by rw [hsig]; omega), if_neg (by simp [hhard]), if_neg (by rw [hrows]; omega),
      if_neg (by simp [hbdk]), if_neg (by rw [hpharm]; omega), if_neg (by rw [hmed]; omega)]
  refine ⟨hnone, classify_label_cases g t, fun hf hp => ?_⟩
  rw [classify_of_fallback g hnone]
  simp [hf, hp]

theorem claim_C5_witness :
    classify_local "hello there" = none ∧
    ((classify_page_text (fun _ => { text := "bill detail", usage_metadata := DummyUsage })
          "hello there").1 = "Final Bill" ∨
      (classify_page_text (fun _ => { text := "bill detail", usage_metadata := DummyUsage })
          "hello there").1 = "Bill Detail" ∨
      (classify_page_text (fun _ => { text := "bill detail", usage_metadata := DummyUsage })
          "hello there").1 = "Pharmacy") ∧
    (pyIn "final" (pyLower (pyStrip ((fun (_ : String) =>
          ({ text := "bill detail", usage_metadata := DummyUsage } : GemResp))
            (classifyPrompt "hello there")).text)) = false →
      pyIn "pharm" (pyLower (pyStrip ((fun (_ : String) =>
          ({ text := "bill detail", usage_metadata := DummyUsage } : GemResp))
            (classifyPrompt "hello there")).text)) = false →
      (classify_page_text (fun _ => { text := "bill detail", usage_metadata := DummyUsage })
          "hello there").1 = "Bill Detail") :=
  claim_C5_amended (fun _ => { text := "bill detail", usage_metadata := DummyUsage })
    "hello there" (by decide) (by decide)

theorem reconcile_pointwise (pages : List RecPage) (i : Nat) (p : RecPage)
    (hp : pages[i]? = some p) :
    (reconcile pages).length = pages.length ∧
    ∃ q, (reconcile pages)[i]? = some q ∧
      (p.page_type = "Final Bill" → q = p) ∧
      (q ≠ p → p.page_type = "Pharmacy" ∧ q.page_type = "Bill Detail" ∧ q.raw_text = p.raw_text ∧
        pages.any (fun r => r.page_type == "Bill Detail") = true ∧
        lacksPharmacyStructure p = true) := by
  by_cases hflag : pages.any (fun r => r.page_type == "Bill Detail") = true
  · have hrec : reconcile pages = pages.map (fun r =>
        if r.page_type == "Pharmacy" && lacksPharmacyStructure r then
          { r with page_type := "Bill Detail" }
        else r) := by
      unfold reconcile
      rw [if_pos hflag]
    by_cases hcond : (p.page_type == "Pharmacy" && lacksPharmacyStructure p) = true
    · refine ⟨by rw [hrec, List.length_map], { p with page_type := "Bill Detail" }, ?_, ?_, ?_⟩
      · rw [hrec, List.getElem?_map, hp, Option.map_some']
        exact congrArg some (if_pos hcond)
      · intro hfb
        rw [Bool.and_eq_true] at hcond
        obtain ⟨h1, -⟩ := hcond
        rw [beq_iff_eq, hfb] at h1
        exact absurd h1 (by decide)
      · intro _
        rw [Bool.and_eq_true] at hcond
        obtain ⟨h1, h2⟩ := hcond
        rw [beq_iff_eq] at h1
        exact ⟨h1, rfl, rfl, hflag, h2⟩
    · refine ⟨by rw [hrec, List.length_map], p, ?_, fun _ => rfl, fun hne => absurd rfl hne⟩
      rw [hrec, List.getElem?_map, hp, Option.map_some']
      exact congrArg some (if_neg hcond)
  · have hrec : reconcile pages = pages := by
      unfold reconcile
      rw [if_neg hflag]
    exact ⟨by rw [hrec], p, by rw [hrec, hp], fun _ => rfl, fun hne => absurd rfl hne⟩

/-- C3: in the spec-modelled pipeline, the Consistency Fixer runs exactly once
over the full page list after every page is classified
(`classify_then_reconcile` is `reconcile` applied once to the classified
pages), it preserves the length and order of the page list, it never changes
a page classified "Final Bill", it never promotes a label, and the only
rewrite it ever performs is "Pharmacy" to "Bill Detail", and only when some
page of the document is classified "Bill Detail" and the rewritten page's raw
text lacks all core pharmacy structural tokens. -/
theorem claim_C3_reconcile_once (gem : String → GemResp) (texts : List String) (i : Nat)
    (t : String) (ht : texts[i]? = some t) :
    (classify_then_reconcile gem texts).length = texts.length ∧
    ∃ q, (classify_then_reconcile gem texts)[i]? = some q ∧
      ((classify_page_text gem t).1 = "Final Bill" →
        q = { page_type := (classify_page_text gem t).1, raw_text := t }) ∧
      (q ≠ { page_type := (classify_page_text gem t).1, raw_text := t } →
        (classify_page_text gem t).1 = "Pharmacy" ∧ q.page_type = "Bill Detail" ∧
        q.raw_text = t ∧
        (∃ t2 ∈ texts, (classify_page_text gem t2).1 = "Bill Detail") ∧
        lacksPharmacyStructure { page_type := (classify_page_text gem t).1, raw_text := t }
          = true) := by
  have hp : (texts.map (fun s =>
      ({ page_type := (classify_page_text gem s).1, raw_text := s } : RecPage)))[i]?
        = some { page_type := (classify_page_text gem t).1, raw_text := t } := by
    rw [List.getElem?_map, ht]
    rfl
  obtain ⟨hlen, q, hq, hfb, hch⟩ := reconcile_pointwise _ i _ hp
  refine ⟨by rw [classify_then_reconcile, hlen, List.length_map], q, hq, hfb, fun hne => ?_⟩
  obtain ⟨h1, h2, h3, h4, h5⟩ := hch hne
  refine ⟨h1, h2, h3, ?_, h5⟩
  obtain ⟨r, hr, hrq⟩ := List.any_eq_true.mp h4
  obtain ⟨t2, ht2, hpt2⟩ := List.mem_map.mp hr
  have hbd : r.page_type = "Bill Detail" := by simpa using hrq
  rw [← hpt2] at hbd
  exact ⟨t2, ht2, by simpa using hbd⟩


/-- Demonstration fallback oracle returning an empty response. -/
def gemEmpty : String → GemResp := fun _ => { text := "", usage_metadata := DummyUsage }

/-- Demonstration document for the Consistency Fixer: a "Bill Detail" page and a
soft-matching pharmacy page without structural tokens. -/
def recDemoTexts : List String := ["ward", "tab a\ntab b\ntab c"]

/-- The second demonstration page's raw text. -/
def tabText : String := "tab a\ntab b\ntab c"

theorem claim_C3_witness :
    (classify_then_reconcile gemEmpty recDemoTexts).length = recDemoTexts.length ∧
    ∃ q, (classify_then_reconcile gemEmpty recDemoTexts)[1]? = some q ∧
      ((classify_page_text gemEmpty tabText).1 = "Final Bill" →
        q = RecPage.mk (classify_page_text gemEmpty tabText).1 tabText) ∧
      (q ≠ RecPage.mk (classify_page_text gemEmpty tabText).1 tabText →
        (classify_page_text gemEmpty tabText).1 = "Pharmacy" ∧
        q.page_type = "Bill Detail" ∧ q.raw_text = tabText ∧
        (∃ t2 ∈ recDemoTexts, (classify_page_text gemEmpty t2).1 = "Bill Detail") ∧
        lacksPharmacyStructure (RecPage.mk (classify_page_text gemEmpty tabText).1 tabText)
          = true) :=
  claim_C3_reconcile_once gemEmpty recDemoTexts 1 tabText (by decide)

theorem processPages_sum (ocr : PyBytes → Except String (String × Usage)) (gem : String → GemResp)
    (itemsModel : String → Except String GemResp) (jloads : String → Option (List Item)) :
    ∀ (pages : List PyBytes) (n : Nat) (outs : List PageOut) (a b c : Nat),
      processPages ocr gem itemsModel jloads n pages = .ok (outs, a, b, c) →
      (outs.map (fun p => p.bill_items.length)).sum = c := by
  intro pages
  induction pages with
  | nil =>
    intro n outs a b c h
    simp only [processPages, Except.ok.injEq, Prod.mk.injEq] at h
    obtain ⟨h1, -, -, h4⟩ := h
    subst h1
    subst h4
    simp
  | cons img rest ih =>
    intro n outs a b c h
    simp only [processPages] at h
    split at h
    · exact absurd h (by simp)
    · split at h
      · exact absurd h (by simp)
      · split at h
        · exact absurd h (by simp)
        · split at h
          · exact absurd h (by simp)
          · rename_i q hq
            simp only [Except.ok.injEq, Prod.mk.injEq] at h
            obtain ⟨houts, -, -, hc⟩ := h
            subst houts
            subst hc
            simp only [List.map_cons, List.sum_cons]
            rw [ih _ q.1 q.2.1 q.2.2.1 q.2.2.2 (by rw [hq])]

/-- C7: whenever the orchestrator produces a successful result, the sum of the
per-page item-list lengths over `pagewise_line_items` equals
`total_item_count`. -/
theorem claim_C7_total_item_count (url : String) (http : HttpResp)
    (rasterize : PyBytes → List PyBytes) (ocr : PyBytes → Except String (String × Usage))
    (gem : String → GemResp) (itemsModel : String → Except String GemResp)
    (jloads : String → Option (List Item)) (r : DocResult)
    (h : extract_document url http rasterize ocr gem itemsModel jloads = .ok r) :
    (r.pagewise_line_items.map (fun p => p.bill_items.length)).sum = r.total_item_count := by
  unfold extract_document at h
  split at h
  · exact absurd h (by simp)
  · split at h
    all_goals
      dsimp only at h
      split at h
      case _ => exact absurd h (by simp)
      case _ outs tin tout titems hq =>
        simp only [Except.ok.injEq] at h
        subst h
        dsimp only
        exact processPages_sum ocr gem itemsModel jloads _ 1 outs tin tout titems hq

theorem claim_C7_witness :
    ((DocResult.mk (TokenUsage.mk 0 0 0) [PageOut.mk "1" "Bill Detail" []] 0).pagewise_line_items.map
        (fun p => p.bill_items.length)).sum
      = (DocResult.mk (TokenUsage.mk 0 0 0) [PageOut.mk "1" "Bill Detail" []] 0).total_item_count :=
  claim_C7_total_item_count "http://h/a.png" (HttpResp.mk 200 [7]) (fun _ => [])
    (fun _ => .ok ("", DummyUsage)) (fun _ => GemResp.mk "x" DummyUsage)
    (fun _ => .ok (GemResp.mk "[]" DummyUsage)) (fun s => if s = "[]" then some [] else none)
    (DocResult.mk (TokenUsage.mk 0 0 0) [PageOut.mk "1" "Bill Detail" []] 0) (by decide)

/-- C8: evaluation of the failure policy.  A download failure and an OCR
failure abort the whole document with a reported error (conjuncts 3 and 4),
and a parse-level item-extraction failure degrades to an empty item list
while the document succeeds (conjunct 5); but an exception raised by the
item-extraction collaborator does NOT degrade: the dict returned by the
handler in `extract_items_from_text` has no usage attributes, so the
orchestrator's counter update raises `AttributeError` and the whole document
aborts (conjuncts 1 and 2), contradicting the claimed page-local recovery. -/
theorem claim_C8_failure_policy :
    extract_document "http://h/a.png" (HttpResp.mk 200 [7]) (fun _ => [])
        (fun _ => .ok ("", DummyUsage)) (fun _ => GemResp.mk "x" DummyUsage)
        (fun _ => .error "model down") (fun _ => none)
      = .error "AttributeError: dict object has no attribute prompt_token_count" ∧
    (extract_endpoint "http://h/a.png" (HttpResp.mk 200 [7]) (fun _ => [])
        (fun _ => .ok ("", DummyUsage)) (fun _ => GemResp.mk "x" DummyUsage)
        (fun _ => .error "model down") (fun _ => none)).is_success = some false ∧
    extract_endpoint "u.png" (HttpResp.mk 404 []) (fun _ => []) (fun _ => .error "no ocr")
        (fun _ => GemResp.mk "" DummyUsage) (fun _ => .error "x") (fun _ => none)
      = ApiResponse.mk (some false) (some "Failed to download document") none none none ∧
    extract_endpoint "a.png" (HttpResp.mk 200 []) (fun _ => []) (fun _ => .error "ocr failed")
        (fun _ => GemResp.mk "" DummyUsage) (fun _ => .error "x") (fun _ => none)
      = ApiResponse.mk (some false) (some "ocr failed") none none none ∧
    extract_document "http://h/a.png" (HttpResp.mk 200 [7]) (fun _ => [])
        (fun _ => .ok ("", DummyUsage)) (fun _ => GemResp.mk "x" DummyUsage)
        (fun _ => .ok (GemResp.mk "no array" DummyUsage)) (fun _ => none)
      = .ok (DocResult.mk (TokenUsage.mk 0 0 0) [PageOut.mk "1" "Bill Detail" []] 0) :=
  ⟨by decide, by decide, by decide, by decide, by decide⟩

/-- C9 counterexample: a successful run returns the extractor's dict unchanged,
which carries no success flag (`is_success` is absent), so the top-level
response does not always carry one. -/
theorem claim_C9_counterexample :
    (extract_endpoint "http://h/b.png" (HttpResp.mk 200 [9]) (fun _ => [])
        (fun _ => .ok ("", DummyUsage)) (fun _ => GemResp.mk "x" DummyUsage)
        (fun _ => .ok (GemResp.mk "[]" DummyUsage))
        (fun s => if s = "[]" then some [] else none)).is_success = none := by decide

/-- C9 (amended): only the fatal-failure response carries a success flag
(`is_success = false`) together with an error description and no page data;
the success response carries the page data and no success flag. -/
theorem claim_C9_amended (url : String) (http : HttpResp) (rasterize : PyBytes → List PyBytes)
    (ocr : PyBytes → Except String (String × Usage)) (gem : String → GemResp)
    (itemsModel : String → Except String GemResp) (jloads : String → Option (List Item)) :
    (∀ e, extract_document url http rasterize ocr gem itemsModel jloads = .error e →
      extract_endpoint url http rasterize ocr gem itemsModel jloads =
        ApiResponse.mk (some false) (some e) none none none) ∧
    (∀ r, extract_document url http rasterize ocr gem itemsModel jloads = .ok r →
      extract_endpoint url http rasterize ocr gem itemsModel jloads =
        ApiResponse.mk none none (some r.token_usage) (some r.pagewise_line_items)
          (some r.total_item_count)) := by
  constructor <;> intro x h <;> unfold extract_endpoint <;> rw [h]

theorem claim_C9_witness :
    extract_endpoint "u2" (HttpResp.mk 404 []) (fun _ => []) (fun _ => .error "x2")
        (fun _ => GemResp.mk "" DummyUsage) (fun _ => .error "y2") (fun _ => none)
      = ApiResponse.mk (some false) (some "Failed to download document") none none none :=
  (claim_C9_amended "u2" (HttpResp.mk 404 []) (fun _ => []) (fun _ => .error "x2")
      (fun _ => GemResp.mk "" DummyUsage) (fun _ => .error "y2") (fun _ => none)).1
    "Failed to download document" (by decide)

/-- C10: `extract_items_from_text` is total (it is a plain function into
item-list/usage pairs) and every failure path yields an empty item list: an
exception from the extraction collaborator returns the zero-usage dict; a
cleaned response without a JSON array returns no items; and a strict-parse
failure followed by a repair-parse failure returns no items. -/
theorem claim_C10_extract_items_total (itemsModel : String → Except String GemResp)
    (jloads : String → Option (List Item)) (text page_type : String) :
    (∀ e, itemsModel (itemsPrompt text page_type) = .error e →
      extract_items_from_text itemsModel jloads text page_type =
        ([], .dict [("prompt_token_count", 0), ("candidates_token_count", 0)])) ∧
    (∀ resp, itemsModel (itemsPrompt text page_type) = .ok resp →
      pyFind (cleanRaw resp.text) "[" = -1 →
      extract_items_from_text itemsModel jloads text page_type
        = ([], .obj resp.usage_metadata)) ∧
    (∀ resp, itemsModel (itemsPrompt text page_type) = .ok resp →
      jloads (pySlice (cleanRaw resp.text) (pyFind (cleanRaw resp.text) "[")
        (pyRfind (cleanRaw resp.text) "]" + 1)) = none →
      jloads (autoFix (pySlice (cleanRaw resp.text) (pyFind (cleanRaw resp.text) "[")
        (pyRfind (cleanRaw resp.text) "]" + 1))) = none →
      extract_items_from_text itemsModel jloads text page_type
        = ([], .obj resp.usage_metadata)) := by
  refine ⟨fun e he => ?_, fun resp hr hf => ?_, fun resp hr hj1 hj2 => ?_⟩
  · unfold extract_items_from_text
    rw [he]
  · unfold extract_items_from_text
    rw [hr]
    dsimp only
    rw [if_pos (Or.inl hf)]
  · unfold extract_items_from_text
    rw [hr]
    dsimp only
    by_cases hb : pyFind (cleanRaw resp.text) "[" = -1 ∨ pyRfind (cleanRaw resp.text) "]" + 1 = -1
    · rw [if_pos hb]
    · rw [if_neg hb, hj1, hj2]

theorem claim_C10_witness :
    extract_items_from_text (fun _ => .error "boom2") (fun _ => none) "text2" "Pharmacy"
      = ([], .dict [("prompt_token_count", 0), ("candidates_token_count", 0)]) :=
  (claim_C10_extract_items_total (fun _ => .error "boom2") (fun _ => none) "text2" "Pharmacy").1
    "boom2" rfl
